import Mathlib

/-!
Verification of the `kvm_userspace` minimal virtual-machine monitor
(`src/kvm_userspace/src/main.rs`) against its design specification.

The Rust source is shallowly embedded:
* machine integers (`usize`, `u64`) are `Nat`, with an explicit `% 2 ^ 64`
  where wrap-around matters;
* guest memory is a function `Nat → Nat` from byte offsets (= guest-physical
  addresses, since the single region is registered at `guest_phys_addr = 0`)
  to byte values;
* the fallible host calls (`ioctl`s, `mmap`, file read) are an oracle
  record `Host`; each field maps the call index (0 for the first call made
  to that primitive) and the call arguments to the outcome the host would
  return, so that "the code never retries a call" is expressible as
  "the result depends only on the outcomes at index 0";
* a Rust `panic!` / `.unwrap()` / `.expect(..)` during setup is an
  `Except.error` carrying the panic message;
* the execution loop `Vm::run` is driven by the finite trace of exit
  reasons that successive `vcpu.run()` calls would report, and produces the
  list of stdout events it writes plus a flag telling whether it terminated
  (executed `break`) within that trace.
-/

/-- Exit reasons of `vcpu.run()` as matched by `Vm::run`
(`kvm_ioctls::VcpuExit`): `Hlt`, `IoOut(port, data)`,
`FailEntry(reason, cpu)`, and a catch-all `other` for every remaining
variant, tagged by a number so that distinct unrecognized reasons can be
told apart in the model. -/
inductive VcpuExit where
  | hlt : VcpuExit
  | ioOut (port : Nat) (data : List Nat) : VcpuExit
  | failEntry (reason : Nat) (cpu : Nat) : VcpuExit
  | other (tag : Nat) : VcpuExit
deriving DecidableEq, Repr

/-- One item written to stdout by the loop body: a `println!` diagnostic
line, or the console chunk `print!("{}", data_str)` where `data_str` is the
lossily UTF-8-decoded port data (stored as the list of Unicode scalar
values). -/
inductive StdoutEvent where
  | logLine (s : String) : StdoutEvent
  | consoleChunk (cs : List Nat) : StdoutEvent
deriving DecidableEq, Repr

/-- Embedding of `String::from_utf8_lossy` from the Rust standard library,
which `Vm::run` applies to the `IoOut` data: UTF-8 decoding where each
maximal invalid subpart is replaced by one U+FFFD replacement character
(0xFFFD). Follows the byte-class table of `core::str::validations`:
lead bytes `0xC2..=0xDF` start 2-byte sequences, `0xE0..=0xEF` 3-byte
sequences (with the restricted second-byte ranges for `0xE0`/`0xED`),
`0xF0..=0xF4` 4-byte sequences (restricted second byte for `0xF0`/`0xF4`);
continuation bytes are `0x80..=0xBF`. On an invalid sequence the valid
prefix (1 to 3 bytes) is consumed and one 0xFFFD is emitted; a truncated
sequence at the end of the input also yields one 0xFFFD. -/
def utf8_lossy : List Nat → List Nat
  | [] => []
  | b1 :: t1 =>
    if b1 < 0x80 then
      b1 :: utf8_lossy t1
    else if b1 < 0xC2 then
      0xFFFD :: utf8_lossy t1
    else if b1 < 0xE0 then
      match t1 with
      | [] => [0xFFFD]
      | b2 :: t2 =>
        if 0x80 ≤ b2 ∧ b2 < 0xC0 then
          ((b1 - 0xC0) * 0x40 + (b2 - 0x80)) :: utf8_lossy t2
        else
          0xFFFD :: utf8_lossy (b2 :: t2)
    else if b1 < 0xF0 then
      match t1 with
      | [] => [0xFFFD]
      | b2 :: t2 =>
        if (b1 = 0xE0 ∧ 0xA0 ≤ b2 ∧ b2 < 0xC0) ∨
            (0xE1 ≤ b1 ∧ b1 ≤ 0xEC ∧ 0x80 ≤ b2 ∧ b2 < 0xC0) ∨
            (b1 = 0xED ∧ 0x80 ≤ b2 ∧ b2 < 0xA0) ∨
            (0xEE ≤ b1 ∧ 0x80 ≤ b2 ∧ b2 < 0xC0) then
          match t2 with
          | [] => [0xFFFD]
          | b3 :: t3 =>
            if 0x80 ≤ b3 ∧ b3 < 0xC0 then
              ((b1 - 0xE0) * 0x1000 + (b2 - 0x80) * 0x40 + (b3 - 0x80)) ::
                utf8_lossy t3
            else
              0xFFFD :: utf8_lossy (b3 :: t3)
        else
          0xFFFD :: utf8_lossy (b2 :: t2)
    else if b1 < 0xF5 then
      match t1 with
      | [] => [0xFFFD]
      | b2 :: t2 =>
        if (b1 = 0xF0 ∧ 0x90 ≤ b2 ∧ b2 < 0xC0) ∨
            (0xF1 ≤ b1 ∧ b1 ≤ 0xF3 ∧ 0x80 ≤ b2 ∧ b2 < 0xC0) ∨
            (b1 = 0xF4 ∧ 0x80 ≤ b2 ∧ b2 < 0x90) then
          match t2 with
          | [] => [0xFFFD]
          | b3 :: t3 =>
            if 0x80 ≤ b3 ∧ b3 < 0xC0 then
              match t3 with
              | [] => [0xFFFD]
              | b4 :: t4 =>
                if 0x80 ≤ b4 ∧ b4 < 0xC0 then
                  ((b1 - 0xF0) * 0x40000 + (b2 - 0x80) * 0x1000 +
                      (b3 - 0x80) * 0x40 + (b4 - 0x80)) :: utf8_lossy t4
                else
                  0xFFFD :: utf8_lossy (b4 :: t4)
            else
              0xFFFD :: utf8_lossy (b3 :: t3)
        else
          0xFFFD :: utf8_lossy (b2 :: t2)
    else
      0xFFFD :: utf8_lossy t1
termination_by xs => xs.length
decreasing_by all_goals (simp_all [List.length_cons]; try omega)

/-- The dispatch loop of `Vm::run`, driven by the trace of exit reasons
that successive `vcpu.run()` calls report.  Returns the stdout events the
loop writes, in order, and `true` when the loop terminated (executed
`break`) within the trace; `false` means every provided exit was consumed
and the loop is still running (blocked in the next `vcpu.run()`).
The one-second `std::thread::sleep` in the `Hlt` arm is real-time behavior
outside the embedding; only its control flow (fall through and continue
the loop) is modelled. -/
def run_loop : List VcpuExit → List StdoutEvent × Bool
  | [] => ([], false)
  | VcpuExit.hlt :: rest =>
    let r := run_loop rest
    (StdoutEvent.logLine "KVM_EXIT_HLT" :: r.1, r.2)
  | VcpuExit.ioOut _ data :: rest =>
    let r := run_loop rest
    (StdoutEvent.consoleChunk (utf8_lossy data) :: r.1, r.2)
  | VcpuExit.failEntry _ _ :: _ => ([StdoutEvent.logLine "KVM_EXIT_FAIL_ENTRY"], true)
  | VcpuExit.other _ :: _ => ([StdoutEvent.logLine "Other exit reason"], true)

/-- Number of `vcpu.run()` calls (resumes of the virtual CPU) the loop of
`Vm::run` issues when the successive calls report the given trace of
exits: every consumed exit corresponds to exactly one resume, and the
`Hlt` and `IoOut` arms fall through to the next loop iteration while the
`FailEntry` and catch-all arms `break`. -/
def resume_count : List VcpuExit → Nat
  | [] => 0
  | VcpuExit.hlt :: rest => 1 + resume_count rest
  | VcpuExit.ioOut _ _ :: rest => 1 + resume_count rest
  | VcpuExit.failEntry _ _ :: _ => 1
  | VcpuExit.other _ :: _ => 1

/-- `kvm_bindings::kvm_segment`: one segment register.  All numeric fields
are modelled as `Nat` (`base : u64`, `limit : u32`, `selector : u16`, the
rest `u8`). -/
structure kvm_segment where
  base : Nat
  limit : Nat
  selector : Nat
  type_ : Nat
  present : Nat
  dpl : Nat
  db : Nat
  s : Nat
  l : Nat
  g : Nat
  avl : Nat
  unusable : Nat
  padding : Nat
deriving DecidableEq, Repr

/-- `kvm_bindings::kvm_dtable`: a descriptor-table register
(`base : u64`, `limit : u16`, three `u16` padding words). -/
structure kvm_dtable where
  base : Nat
  limit : Nat
  padding : List Nat
deriving DecidableEq, Repr

/-- `kvm_bindings::kvm_sregs`: the special/segment register file read and
written by `get_sregs` / `set_sregs`. -/
structure kvm_sregs where
  cs : kvm_segment
  ds : kvm_segment
  es : kvm_segment
  fs : kvm_segment
  gs : kvm_segment
  ss : kvm_segment
  tr : kvm_segment
  ldt : kvm_segment
  gdt : kvm_dtable
  idt : kvm_dtable
  cr0 : Nat
  cr2 : Nat
  cr3 : Nat
  cr4 : Nat
  cr8 : Nat
  efer : Nat
  apic_base : Nat
  interrupt_bitmap : List Nat
deriving DecidableEq, Repr

/-- `kvm_bindings::kvm_regs`: the general-purpose register file read and
written by `get_regs` / `set_regs` (all fields `u64`). -/
structure kvm_regs where
  rax : Nat
  rbx : Nat
  rcx : Nat
  rdx : Nat
  rsi : Nat
  rdi : Nat
  rsp : Nat
  rbp : Nat
  r8 : Nat
  r9 : Nat
  r10 : Nat
  r11 : Nat
  r12 : Nat
  r13 : Nat
  r14 : Nat
  r15 : Nat
  rip : Nat
  rflags : Nat
deriving DecidableEq, Repr

/-- The mutation `Vm::setup_cpu` applies to the sregs value it read:
`vcpu_sregs.cs.selector = 0; vcpu_sregs.cs.base = 0;` — the written-back
value as a function of the value `get_sregs` returned. -/
def setup_cpu_sregs (sr : kvm_sregs) : kvm_sregs :=
  { sr with cs := { sr.cs with selector := 0, base := 0 } }

/-- The mutation `Vm::setup_cpu` applies to the regs value it read:
`vcpu_regs.rax = 0; vcpu_regs.rbx = 0; vcpu_regs.rip = 0;` — the
written-back value as a function of the value `get_regs` returned. -/
def setup_cpu_regs (r : kvm_regs) : kvm_regs :=
  { r with rax := 0, rbx := 0, rip := 0 }

/-- The size computation of `Vm::setup_memory`:
`let ram_size = (ram_size + 0xfff) & !0xfff;` on a 64-bit `usize`
(x86-64 target, release-profile wrapping addition).  `!0xfff` as a 64-bit
value is `0xFFFFFFFFFFFFF000`.  This is both the length passed to `mmap`
and the `memory_size` of the registered region. -/
def aligned_ram_size (ram_size : Nat) : Nat :=
  ((ram_size + 0xfff) % 2 ^ 64) &&& 0xFFFFFFFFFFFFF000

/-- `kvm_bindings::kvm_userspace_memory_region`, the argument
`Vm::setup_memory` passes to `set_user_memory_region`. -/
structure kvm_userspace_memory_region where
  slot : Nat
  guest_phys_addr : Nat
  memory_size : Nat
  userspace_addr : Nat
  flags : Nat
deriving DecidableEq, Repr

/-- The fresh anonymous `mmap(MAP_SHARED | MAP_ANONYMOUS)` mapping of
`Vm::setup_memory`: every byte of the new mapping reads as zero. -/
def anon_zero_mem : Nat → Nat := fun _ => 0

/-- The copy of `Vm::load_image`:
`std::ptr::copy_nonoverlapping(kernel.as_ptr(), ptr, kernel.len())` with
`ptr = self.hva_ram_start`, i.e. offset 0 of the mapped region.  The
result maps every offset below `kernel.length` to the corresponding image
byte and leaves all other offsets at their previous value.  Note that the
copy length is `kernel.len()` alone: no comparison against the region
size occurs anywhere in `load_image`, and the operation cannot fail or
truncate. -/
def load_image (mem : Nat → Nat) (kernel : List Nat) : Nat → Nat :=
  fun a => if h : a < kernel.length then kernel.get ⟨a, h⟩ else mem a

/-- Oracle for the fallible host primitives the setup path invokes.  Each
field maps the call index (`0` = the first call the program makes to that
primitive) and the call arguments to the outcome the host returns; an
`Except.error` models the failing `ioctl`/syscall, and `mmap` returns
`none` for `MAP_FAILED`, otherwise `some` of the mapped address. -/
structure Host where
  kvm_new : Nat → Except String Unit
  create_vm : Nat → Except String Unit
  mmap : Nat → Nat → Option Nat
  set_user_memory_region : Nat → kvm_userspace_memory_region → Except String Unit
  create_vcpu : Nat → Nat → Except String Unit
  get_sregs : Nat → Except String kvm_sregs
  set_sregs : Nat → kvm_sregs → Except String Unit
  get_regs : Nat → Except String kvm_regs
  set_regs : Nat → kvm_regs → Except String Unit
  fs_read : Nat → String → Except String (List Nat)

/-- The state `main` has built once `Vm::new`, `setup_memory`,
`setup_cpu` and `load_image` have all succeeded. -/
structure VmSetup where
  ram_size : Nat
  hva_ram_start : Nat
  sregs : kvm_sregs
  regs : kvm_regs
  mem : Nat → Nat

/-- The setup sequence of `main` up to (and including) `load_image`:
`Vm::new` (`Kvm::new().unwrap()`, `kvm.create_vm().unwrap()`), then
`setup_memory` (`mmap`, `set_user_memory_region` with
`slot = 0`, `guest_phys_addr = 0`, `memory_size = aligned size`,
`flags = 0`), then `setup_cpu` (`create_vcpu(0)`, `get_sregs`,
`set_sregs`, `get_regs`, `set_regs`), then `load_image`
(`std::fs::read`, raw copy).  Every failing call panics immediately
(modelled as `Except.error` carrying the panic/`expect` message; for the
plain `.unwrap()` calls the message is the underlying error value), so
the first failure aborts the whole construction, and each primitive is
consulted only at call index 0: no call is ever retried. -/
def setup (h : Host) (ms : Nat) (image : String) : Except String VmSetup :=
  match h.kvm_new 0 with
  | Except.error e => Except.error e
  | Except.ok _ =>
  match h.create_vm 0 with
  | Except.error e => Except.error e
  | Except.ok _ =>
  match h.mmap 0 (aligned_ram_size ms) with
  | none => Except.error "mmap failed"
  | some ptr =>
  match h.set_user_memory_region 0
      { slot := 0, guest_phys_addr := 0, memory_size := aligned_ram_size ms,
        userspace_addr := ptr, flags := 0 } with
  | Except.error e => Except.error ("set_user_memory_region failed: " ++ e)
  | Except.ok _ =>
  match h.create_vcpu 0 0 with
  | Except.error e => Except.error e
  | Except.ok _ =>
  match h.get_sregs 0 with
  | Except.error _ => Except.error "get sregs failed"
  | Except.ok s0 =>
  match h.set_sregs 0 (setup_cpu_sregs s0) with
  | Except.error _ => Except.error "set sregs failed"
  | Except.ok _ =>
  match h.get_regs 0 with
  | Except.error _ => Except.error "get regs failed"
  | Except.ok r0 =>
  match h.set_regs 0 (setup_cpu_regs r0) with
  | Except.error e => Except.error e
  | Except.ok _ =>
  match h.fs_read 0 image with
  | Except.error e => Except.error e
  | Except.ok kernel =>
  Except.ok
    { ram_size := aligned_ram_size ms, hva_ram_start := ptr,
      sregs := setup_cpu_sregs s0, regs := setup_cpu_regs r0,
      mem := load_image anon_zero_mem kernel }

/-- The memory size `main` passes to `setup_memory`:
`let mem_size = 0x1000;` (the adjacent comment claims 1 MiB). -/
def mem_size : Nat := 0x1000

/-- A concrete all-zero segment register, used to build concrete hosts. -/
def zero_segment : kvm_segment :=
  { base := 0, limit := 0, selector := 0, type_ := 0, present := 0, dpl := 0,
    db := 0, s := 0, l := 0, g := 0, avl := 0, unusable := 0, padding := 0 }

/-- A concrete sregs value a host oracle can return from `get_sregs`. -/
def sample_sregs : kvm_sregs :=
  { cs := { zero_segment with selector := 0x10, base := 0xffff0000, limit := 7 },
    ds := zero_segment, es := zero_segment, fs := zero_segment,
    gs := zero_segment, ss := zero_segment, tr := zero_segment,
    ldt := zero_segment, gdt := { base := 3, limit := 4, padding := [0, 0, 0] },
    idt := { base := 5, limit := 6, padding := [0, 0, 0] },
    cr0 := 0x60000010, cr2 := 0, cr3 := 0, cr4 := 0, cr8 := 0,
    efer := 0, apic_base := 0xfee00000, interrupt_bitmap := [0, 0, 0, 0] }

/-- A concrete regs value a host oracle can return from `get_regs`. -/
def sample_regs : kvm_regs :=
  { rax := 11, rbx := 12, rcx := 13, rdx := 14, rsi := 15, rdi := 16,
    rsp := 17, rbp := 18, r8 := 19, r9 := 20, r10 := 21, r11 := 22,
    r12 := 23, r13 := 24, r14 := 25, r15 := 26, rip := 0xfff0, rflags := 2 }

/-- A host oracle on which every setup call succeeds. -/
def host_ok : Host :=
  { kvm_new := fun _ => Except.ok (),
    create_vm := fun _ => Except.ok (),
    mmap := fun _ _ => some 0x7f1200000000,
    set_user_memory_region := fun _ _ => Except.ok (),
    create_vcpu := fun _ _ => Except.ok (),
    get_sregs := fun _ => Except.ok sample_sregs,
    set_sregs := fun _ _ => Except.ok (),
    get_regs := fun _ => Except.ok sample_regs,
    set_regs := fun _ _ => Except.ok (),
    fs_read := fun _ _ => Except.ok [0xf4] }

/-- A host oracle whose `mmap` fails (returns `MAP_FAILED`). -/
def host_bad_mmap : Host :=
  { host_ok with mmap := fun _ _ => none }

/-- A host oracle that agrees with `host_ok` on the first call to every
primitive but would fail every later call: used to show `setup` never
consults any call index beyond 0, i.e. never retries a primitive. -/
def host_no_second_call : Host :=
  { kvm_new := fun i => if i = 0 then Except.ok () else Except.error "again",
    create_vm := fun i => if i = 0 then Except.ok () else Except.error "again",
    mmap := fun i n => if i = 0 then host_ok.mmap 0 n else none,
    set_user_memory_region := fun i r =>
      if i = 0 then host_ok.set_user_memory_region 0 r else Except.error "again",
    create_vcpu := fun i c =>
      if i = 0 then host_ok.create_vcpu 0 c else Except.error "again",
    get_sregs := fun i => if i = 0 then host_ok.get_sregs 0 else Except.error "again",
    set_sregs := fun i v =>
      if i = 0 then host_ok.set_sregs 0 v else Except.error "again",
    get_regs := fun i => if i = 0 then host_ok.get_regs 0 else Except.error "again",
    set_regs := fun i v =>
      if i = 0 then host_ok.set_regs 0 v else Except.error "again",
    fs_read := fun i p =>
      if i = 0 then host_ok.fs_read 0 p else Except.error "again" }

/-! ## Helper lemmas -/

/-- Masking a 64-bit value with `!0xfff` (= `0xFFFFFFFFFFFFF000`) clears
the low 12 bits, i.e. rounds down to a multiple of 4096. -/
theorem land_high_mask (n : Nat) (h : n < 2 ^ 64) :
    n &&& 0xFFFFFFFFFFFFF000 = n / 4096 * 4096 := by
  have hmask : (0xFFFFFFFFFFFFF000 : Nat) = (2 ^ 52 - 1) <<< 12 := by
    rw [Nat.shiftLeft_eq]; norm_num
  have hdiv : n / 4096 * 4096 = (n >>> 12) <<< 12 := by
    rw [Nat.shiftRight_eq_div_pow, Nat.shiftLeft_eq]
  apply Nat.eq_of_testBit_eq
  intro i
  rw [Nat.testBit_and, hmask, hdiv, Nat.testBit_shiftLeft, Nat.testBit_shiftLeft,
    Nat.testBit_shiftRight, Nat.testBit_two_pow_sub_one]
  by_cases h12 : 12 ≤ i
  · by_cases h64 : i < 64
    · have h52 : i - 12 < 52 := by omega
      have hi : 12 + (i - 12) = i := by omega
      simp [h12, h52, hi]
    · have hbit : n.testBit i = false := by
        refine Nat.testBit_lt_two_pow (Nat.lt_of_lt_of_le h ?_)
        exact Nat.pow_le_pow_right (by norm_num) (by omega)
      have h52 : ¬ i - 12 < 52 := by omega
      have hi : 12 + (i - 12) = i := by omega
      simp [h12, h52, hi, hbit]
  · simp [h12]

/-! ## Claim theorems -/

/-- Claim C1 (amended): on every `Hlt` exit the loop logs the halt,
sleeps for a fixed interval, and then continues with the next loop
iteration, which resumes the virtual CPU again; the `Hlt` branch itself
never terminates the loop, but it does not prevent further resumes. -/
theorem hlt_branch_continues_loop (rest : List VcpuExit) :
    run_loop (VcpuExit.hlt :: rest) =
      (StdoutEvent.logLine "KVM_EXIT_HLT" :: (run_loop rest).1,
        (run_loop rest).2) ∧
    resume_count (VcpuExit.hlt :: rest) = 1 + resume_count rest :=
  ⟨rfl, rfl⟩

/-- Claim C1 (counterexample): after a `Hlt` exit the loop issues a
second resume of the virtual CPU — on the trace `[hlt, other]` it makes
two `vcpu.run()` calls and even leaves the `Hlt` branch, terminating
through the catch-all branch.  This refutes "once the guest has halted,
the loop never exits the Halt branch and never issues another resume". -/
theorem hlt_then_second_resume :
    resume_count [VcpuExit.hlt, VcpuExit.other 0] = 2 ∧
    (run_loop [VcpuExit.hlt, VcpuExit.other 0]).2 = true := by decide

/-- Claim C2: `load_image` copies every byte of the image to its offset,
with no check of the image length against the region size (the
definition of `load_image` does not even mention the region size, and it
cannot fail or truncate); in particular, for an image longer than the
region, the byte at offset `region_size` — the first offset past the end
of the allocated region — is overwritten with the corresponding image
byte. -/
theorem load_image_unchecked_overrun (region_size : Nat) (mem : Nat → Nat)
    (kernel : List Nat) (h : region_size < kernel.length) :
    (∀ a (ha : a < kernel.length),
        load_image mem kernel a = kernel.get ⟨a, ha⟩) ∧
    load_image mem kernel region_size = kernel.get ⟨region_size, h⟩ := by
  constructor
  · intro a ha
    simp only [load_image]
    rw [dif_pos ha]
  · simp only [load_image]
    rw [dif_pos h]

/-- Witness for C2: a 2-byte image in a 1-byte region writes the image
byte 20 at offset 1, past the end of the region. -/
theorem load_image_unchecked_overrun_witness :
    1 < [10, 20].length ∧ load_image anon_zero_mem [10, 20] 1 = 20 := by
  refine ⟨by decide, ?_⟩
  have h := (load_image_unchecked_overrun 1 anon_zero_mem [10, 20] (by decide)).2
  simpa using h

/-- Claim C3 (amended): for every requested size `s > 0` such that the
64-bit addition `s + 0xfff` does not wrap (`s + 4095 < 2 ^ 64`), the
allocated and registered region size equals
`((s + 4095) / 4096) * 4096`, `s` rounded up to the next multiple of
4096.  (For larger `s` the `usize` addition wraps and the computed size
differs — see the counterexample.) -/
theorem aligned_ram_size_rounds_up (s : Nat) (h0 : 0 < s)
    (hno : s + 4095 < 2 ^ 64) :
    aligned_ram_size s = (s + 4095) / 4096 * 4096 := by
  have h1 : (s + 0xfff) % 2 ^ 64 = s + 4095 := by
    have h2 : s + 0xfff = s + 4095 := by norm_num
    rw [h2, Nat.mod_eq_of_lt hno]
  rw [aligned_ram_size, h1, land_high_mask _ hno]

/-- Witness for C3: the three sizes named by the claim. -/
theorem aligned_ram_size_rounds_up_witness :
    aligned_ram_size 1 = 4096 ∧ aligned_ram_size 4096 = 4096 ∧
    aligned_ram_size 4097 = 8192 := by
  refine ⟨?_, ?_, ?_⟩
  · rw [aligned_ram_size_rounds_up 1 (by norm_num) (by norm_num)]
  · rw [aligned_ram_size_rounds_up 4096 (by norm_num) (by norm_num)]
  · rw [aligned_ram_size_rounds_up 4097 (by norm_num) (by norm_num)]

/-- Claim C3 (counterexample): at the requested size `s = 2 ^ 64 - 1`
(a valid `usize` value, and `> 0`) the wrapping 64-bit addition makes
the computed region size 0, not the claimed rounded-up value. -/
theorem aligned_ram_size_overflow :
    aligned_ram_size (2 ^ 64 - 1) = 0 ∧
    (2 ^ 64 - 1 + 4095) / 4096 * 4096 = 2 ^ 64 ∧
    (0 : Nat) ≠ 2 ^ 64 := by decide

/-- Claim C4: the register state `setup_cpu` writes back has
code-segment selector 0, code-segment base 0, `rip = 0`, `rax = 0` and
`rbx = 0`, whatever state was read from the virtual CPU — so reading
the registers after initialization yields those zeros. -/
theorem setup_cpu_flat_boot (sr : kvm_sregs) (r : kvm_regs) :
    (setup_cpu_sregs sr).cs.selector = 0 ∧ (setup_cpu_sregs sr).cs.base = 0 ∧
    (setup_cpu_regs r).rip = 0 ∧ (setup_cpu_regs r).rax = 0 ∧
    (setup_cpu_regs r).rbx = 0 :=
  ⟨rfl, rfl, rfl, rfl, rfl⟩

/-- Claim C5: loading an image of length `L ≤ size` into the
zero-initialized region copies exactly the `L` image bytes to offsets
`[0, L)` and leaves every offset in `[L, size)` at its prior zero
value. -/
theorem load_image_copies_and_frame (size : Nat) (kernel : List Nat)
    (h : kernel.length ≤ size) :
    (∀ a (ha : a < kernel.length),
        load_image anon_zero_mem kernel a = kernel.get ⟨a, ha⟩) ∧
    (∀ a, kernel.length ≤ a → a < size → load_image anon_zero_mem kernel a = 0) := by
  constructor
  · intro a ha
    simp only [load_image]
    rw [dif_pos ha]
  · intro a hge _
    simp only [load_image]
    rw [dif_neg (by omega)]
    rfl

/-- Witness for C5: the 2-byte image `[72, 73]` in a 4096-byte region. -/
theorem load_image_copies_and_frame_witness :
    [72, 73].length ≤ 4096 ∧
    load_image anon_zero_mem [72, 73] 1 = 73 ∧
    load_image anon_zero_mem [72, 73] 2 = 0 := by
  have h := load_image_copies_and_frame 4096 [72, 73] (by decide)
  refine ⟨by decide, ?_, h.2 2 (by decide) (by decide)⟩
  simpa using h.1 1 (by decide)

/-- Claim C6: on every `IoOut` exit — whatever the port number — the
loop emits the lossily UTF-8-decoded data as the next console chunk,
before anything produced by later exits, and then continues exactly as
it would on the rest of the trace (an `IoOut` exit never terminates the
loop). -/
theorem io_out_forwards_lossy (port : Nat) (data : List Nat)
    (rest : List VcpuExit) :
    run_loop (VcpuExit.ioOut port data :: rest) =
      (StdoutEvent.consoleChunk (utf8_lossy data) :: (run_loop rest).1,
        (run_loop rest).2) :=
  rfl

/-- Claim C7 (amended): on a `FailEntry` exit the loop stops (normal
`break`, not a panic) after printing the fixed diagnostic line
`KVM_EXIT_FAIL_ENTRY`; on any other unrecognized exit it stops after
printing the fixed line `Other exit reason`; the two diagnostics are
distinct, so the terminal class is observable, but the specific reason
value is not part of what the loop reports. -/
theorem fail_entry_and_other_stop (r c t : Nat)
    (rest₁ rest₂ : List VcpuExit) :
    run_loop (VcpuExit.failEntry r c :: rest₁) =
      ([StdoutEvent.logLine "KVM_EXIT_FAIL_ENTRY"], true) ∧
    run_loop (VcpuExit.other t :: rest₂) =
      ([StdoutEvent.logLine "Other exit reason"], true) ∧
    ("KVM_EXIT_FAIL_ENTRY" : String) ≠ "Other exit reason" :=
  ⟨rfl, rfl, by decide⟩

/-- Claim C7 (counterexample): the loop output and result are identical
for entry-failure reasons 1 and 2 and for unrecognized-exit tags 3 and
4 — the reason is dropped, so it is not surfaced to the caller in any
observable way. -/
theorem exit_reason_not_surfaced :
    (1 : Nat) ≠ 2 ∧
    run_loop [VcpuExit.failEntry 1 0] = run_loop [VcpuExit.failEntry 2 0] ∧
    (3 : Nat) ≠ 4 ∧
    run_loop [VcpuExit.other 3] = run_loop [VcpuExit.other 4] := by decide

/-- Claim C8: `main` passes `mem_size = 0x1000`, numerically 4096 bytes
(one page), and the registered region size is therefore 4096. -/
theorem main_mem_size_one_page :
    mem_size = 4096 ∧ aligned_ram_size mem_size = 4096 := by decide

/-- Claim C10: `setup_cpu` modifies only `cs.selector`, `cs.base`,
`rax`, `rbx` and `rip`: every other field of the sregs and regs values
read from the virtual CPU is written back unchanged. -/
theorem setup_cpu_frame (sr : kvm_sregs) (r : kvm_regs) :
    (setup_cpu_sregs sr).cs.limit = sr.cs.limit ∧
    (setup_cpu_sregs sr).cs.type_ = sr.cs.type_ ∧
    (setup_cpu_sregs sr).cs.present = sr.cs.present ∧
    (setup_cpu_sregs sr).cs.dpl = sr.cs.dpl ∧
    (setup_cpu_sregs sr).cs.db = sr.cs.db ∧
    (setup_cpu_sregs sr).cs.s = sr.cs.s ∧
    (setup_cpu_sregs sr).cs.l = sr.cs.l ∧
    (setup_cpu_sregs sr).cs.g = sr.cs.g ∧
    (setup_cpu_sregs sr).cs.avl = sr.cs.avl ∧
    (setup_cpu_sregs sr).cs.unusable = sr.cs.unusable ∧
    (setup_cpu_sregs sr).cs.padding = sr.cs.padding ∧
    (setup_cpu_sregs sr).ds = sr.ds ∧
    (setup_cpu_sregs sr).es = sr.es ∧
    (setup_cpu_sregs sr).fs = sr.fs ∧
    (setup_cpu_sregs sr).gs = sr.gs ∧
    (setup_cpu_sregs sr).ss = sr.ss ∧
    (setup_cpu_sregs sr).tr = sr.tr ∧
    (setup_cpu_sregs sr).ldt = sr.ldt ∧
    (setup_cpu_sregs sr).gdt = sr.gdt ∧
    (setup_cpu_sregs sr).idt = sr.idt ∧
    (setup_cpu_sregs sr).cr0 = sr.cr0 ∧
    (setup_cpu_sregs sr).cr2 = sr.cr2 ∧
    (setup_cpu_sregs sr).cr3 = sr.cr3 ∧
    (setup_cpu_sregs sr).cr4 = sr.cr4 ∧
    (setup_cpu_sregs sr).cr8 = sr.cr8 ∧
    (setup_cpu_sregs sr).efer = sr.efer ∧
    (setup_cpu_sregs sr).apic_base = sr.apic_base ∧
    (setup_cpu_sregs sr).interrupt_bitmap = sr.interrupt_bitmap ∧
    (setup_cpu_regs r).rcx = r.rcx ∧
    (setup_cpu_regs r).rdx = r.rdx ∧
    (setup_cpu_regs r).rsi = r.rsi ∧
    (setup_cpu_regs r).rdi = r.rdi ∧
    (setup_cpu_regs r).rsp = r.rsp ∧
    (setup_cpu_regs r).rbp = r.rbp ∧
    (setup_cpu_regs r).r8 = r.r8 ∧
    (setup_cpu_regs r).r9 = r.r9 ∧
    (setup_cpu_regs r).r10 = r.r10 ∧
    (setup_cpu_regs r).r11 = r.r11 ∧
    (setup_cpu_regs r).r12 = r.r12 ∧
    (setup_cpu_regs r).r13 = r.r13 ∧
    (setup_cpu_regs r).r14 = r.r14 ∧
    (setup_cpu_regs r).r15 = r.r15 ∧
    (setup_cpu_regs r).rflags = r.rflags := by
  and_intros <;> rfl

/-- Claim C9: the setup sequence succeeds exactly when every one of the
ten host primitives succeeds on its first call — so the first failing
call (hypervisor open, VM creation, memory allocation, region
registration, vCPU creation, any register get/set, image read) aborts
the whole construction; whenever setup does not succeed it terminates
with an error message; and the outcome depends only on call index 0 of
every primitive, i.e. no setup step is ever retried. -/
theorem setup_fail_fast (h : Host) (ms : Nat) (img : String) :
    ((∃ st, setup h ms img = Except.ok st) ↔
      (h.kvm_new 0 = Except.ok () ∧ h.create_vm 0 = Except.ok () ∧
        ∃ ptr, h.mmap 0 (aligned_ram_size ms) = some ptr ∧
          h.set_user_memory_region 0
            { slot := 0, guest_phys_addr := 0,
              memory_size := aligned_ram_size ms,
              userspace_addr := ptr, flags := 0 } = Except.ok () ∧
          h.create_vcpu 0 0 = Except.ok () ∧
          ∃ s0, h.get_sregs 0 = Except.ok s0 ∧
            h.set_sregs 0 (setup_cpu_sregs s0) = Except.ok () ∧
            ∃ r0, h.get_regs 0 = Except.ok r0 ∧
              h.set_regs 0 (setup_cpu_regs r0) = Except.ok () ∧
              ∃ kernel, h.fs_read 0 img = Except.ok kernel)) ∧
    ((∀ st, setup h ms img ≠ Except.ok st) →
      ∃ msg, setup h ms img = Except.error msg) ∧
    (∀ h' : Host,
      h.kvm_new 0 = h'.kvm_new 0 →
      h.create_vm 0 = h'.create_vm 0 →
      (∀ n, h.mmap 0 n = h'.mmap 0 n) →
      (∀ reg, h.set_user_memory_region 0 reg = h'.set_user_memory_region 0 reg) →
      (∀ c, h.create_vcpu 0 c = h'.create_vcpu 0 c) →
      h.get_sregs 0 = h'.get_sregs 0 →
      (∀ v, h.set_sregs 0 v = h'.set_sregs 0 v) →
      h.get_regs 0 = h'.get_regs 0 →
      (∀ v, h.set_regs 0 v = h'.set_regs 0 v) →
      (∀ p, h.fs_read 0 p = h'.fs_read 0 p) →
      setup h ms img = setup h' ms img) := by
  refine ⟨?_, ?_, ?_⟩
  · cases hk : h.kvm_new 0 with
    | error e => simp [setup, hk]
    | ok u =>
      cases u
      cases hv : h.create_vm 0 with
      | error e => simp [setup, hk, hv]
      | ok u =>
        cases u
        cases hm : h.mmap 0 (aligned_ram_size ms) with
        | none => simp [setup, hk, hv, hm]
        | some ptr =>
          cases hr : h.set_user_memory_region 0
              { slot := 0, guest_phys_addr := 0,
                memory_size := aligned_ram_size ms,
                userspace_addr := ptr, flags := 0 } with
          | error e => simp [setup, hk, hv, hm, hr]
          | ok u =>
            cases u
            cases hc : h.create_vcpu 0 0 with
            | error e => simp [setup, hk, hv, hm, hr, hc]
            | ok u =>
              cases u
              cases hgs : h.get_sregs 0 with
              | error e => simp [setup, hk, hv, hm, hr, hc, hgs]
              | ok s0 =>
                cases hss : h.set_sregs 0 (setup_cpu_sregs s0) with
                | error e => simp [setup, hk, hv, hm, hr, hc, hgs, hss]
                | ok u =>
                  cases u
                  cases hgr : h.get_regs 0 with
                  | error e => simp [setup, hk, hv, hm, hr, hc, hgs, hss, hgr]
                  | ok r0 =>
                    cases hsr : h.set_regs 0 (setup_cpu_regs r0) with
                    | error e =>
                      simp [setup, hk, hv, hm, hr, hc, hgs, hss, hgr, hsr]
                    | ok u =>
                      cases u
                      cases hrd : h.fs_read 0 img with
                      | error e =>
                        simp [setup, hk, hv, hm, hr, hc, hgs, hss, hgr, hsr, hrd]
                      | ok kernel =>
                        simp [setup, hk, hv, hm, hr, hc, hgs, hss, hgr, hsr, hrd]
  · intro hne
    cases hres : setup h ms img with
    | error e => exact ⟨e, rfl⟩
    | ok st => exact absurd hres (hne st)
  · intro h' a1 a2 a3 a4 a5 a6 a7 a8 a9 a10
    simp only [setup, a1, a2, a3, a4, a5, a6, a7, a8, a9, a10]

/-- Witness for C9: on a host where everything succeeds, setup
succeeds; on a host whose `mmap` fails, setup reports an error; and a
host that would fail every call after the first produces exactly the
same setup outcome as one that would keep succeeding, so no primitive
is consulted twice. -/
theorem setup_fail_fast_witness :
    (∃ st, setup host_ok 0x1000 "./guest_os/kernel.bin" = Except.ok st) ∧
    (∃ msg, setup host_bad_mmap 0x1000 "./guest_os/kernel.bin" =
      Except.error msg) ∧
    setup host_ok 0x1000 "./guest_os/kernel.bin" =
      setup host_no_second_call 0x1000 "./guest_os/kernel.bin" := by
  refine ⟨?_, ?_, ?_⟩
  · exact (setup_fail_fast host_ok 0x1000 "./guest_os/kernel.bin").1.mpr
      ⟨rfl, rfl, 0x7f1200000000, rfl, rfl, rfl, sample_sregs, rfl, rfl,
        sample_regs, rfl, rfl, [0xf4], rfl⟩
  · refine (setup_fail_fast host_bad_mmap 0x1000 "./guest_os/kernel.bin").2.1 ?_
    intro st hst
    have hval : setup host_bad_mmap 0x1000 "./guest_os/kernel.bin" =
        Except.error "mmap failed" := rfl
    rw [hval] at hst
    exact Except.noConfusion hst
  · exact (setup_fail_fast host_ok 0x1000 "./guest_os/kernel.bin").2.2
      host_no_second_call rfl rfl (fun _ => rfl) (fun _ => rfl) (fun _ => rfl)
      rfl (fun _ => rfl) rfl (fun _ => rfl) (fun _ => rfl)
